import Mathlib

/-!
Shallow embedding of the scheduling and reconciliation core of the
emr-orch-api repository (src/app/core/models.py and src/app/core/__init__.py).

Conventions of the embedding:
* Python datetimes are modelled as natural numbers counting minutes
  (`datetime.utcnow()` becomes an explicit `now : Nat` parameter;
  `timedelta(minutes=m)` becomes `+ m`).
* Every remote (AWS) call is modelled by an explicit outcome parameter of
  type `Except EmrError _` supplied by the environment; the typed exception
  classes of src/app/core/errors.py become the `ErrKind` tags.
* A Python method that may raise is modelled as a function returning
  `Except (state × EmrError) state`: the error case carries the mutated
  object state, because in Python the object survives the raised exception
  with the mutations applied so far (in particular those performed by the
  `status_handler` decorator).
-/

namespace EmrOrch

/-- Tags for the typed exception classes of `src/app/core/errors.py` that the
core reacts on (`UpdateStatusError`, `CreateClusterError`,
`UnableToAssignStepError`, `UnableToTerminateClusterError`, `StepCancelError`);
`other` stands for any exception outside those classes. -/
inductive ErrKind where
  | updateStatus
  | createCluster
  | unableToAssign
  | unableToTerminate
  | stepCancel
  | other
  deriving DecidableEq, Repr

/-- A raised Python exception: its class tag and its message (`str(e)`). -/
structure EmrError where
  kind : ErrKind
  msg : String
  deriving DecidableEq, Repr

/-- Whether `needle` is a prefix of `hay` (over character lists). -/
def isPrefixCh : List Char → List Char → Bool
  | [], _ => true
  | _ :: _, [] => false
  | a :: as, b :: bs => a == b && isPrefixCh as bs

/-- Whether `needle` occurs as a contiguous substring of `hay`. -/
def hasSubstrCh (needle : List Char) : List Char → Bool
  | [] => isPrefixCh needle []
  | c :: cs => isPrefixCh needle (c :: cs) || hasSubstrCh needle cs

/-- Models the Python test `"ExpiredTokenException" in str(e)` from the
`status_handler` decorator (models.py line 47). -/
def containsExpiredToken (msg : String) : Bool :=
  hasSubstrCh "ExpiredTokenException".data msg.data

/-- Python truthiness of a nullable string column (`if self.cluster_id:`):
`None` and the empty string are falsy. -/
def truthy : Option String → Bool
  | none => false
  | some s => s != ""

/-- The `status_handler` decorator of models.py lines 25-62: run the body; on
an exception set the status to `on_error` (or to `EXPIRED_TOKEN` when the
error text indicates an expired token) and re-raise; on success set the status
to `on_success` when one is configured. -/
def status_handler {σ α : Type} (setStatus : σ → String → σ)
    (on_error : String) (on_success : Option String)
    (body : σ → Except (σ × EmrError) (σ × α)) (s : σ) :
    Except (σ × EmrError) (σ × α) :=
  match body s with
  | .error (s1, e) =>
      if containsExpiredToken e.msg then
        .error (setStatus s1 "EXPIRED_TOKEN", e)
      else
        .error (setStatus s1 on_error, e)
  | .ok (s1, a) =>
      match on_success with
      | some st => .ok (setStatus s1 st, a)
      | none => .ok (s1, a)

/-- The raw payload returned by `describe_cluster` / `describe_step`: the
remote-reported state string and the serialized snapshot stored in
`properties_snapshot`. -/
structure StatusPayload where
  state : String
  snapshot : String
  deriving DecidableEq, Repr

/-- The `steps` row of models.py (the work unit): the columns the core's
operations read or write.  `job_flow_config` is the canonical JSON
serialization of the launch configuration (the argument of `json.dumps` in
`Step.__hash__`). -/
structure Step where
  id : Nat
  name : String
  step_id : Option String
  status : String
  cluster_id : Option String
  user : String
  credentials : String
  job_flow_config : String
  properties_snapshot : String
  deriving DecidableEq, Repr

def Step.setStatus (s : Step) (st : String) : Step := { s with status := st }

def Step.TERMINATED_STATUS : List String :=
  ["COMPLETED", "CANCELLED", "FAILED", "INTERRUPTED", "BAD_CONFIG", "ERROR",
   "EXPIRED_TOKEN"]

def Step.UNASSIGNED_STATUS : String := "UNASSIGNED"

/-- The EMR step states documented in the `Step` class docstring
(models.py line 80). -/
def EMR_STEP_STATES : List String :=
  ["PENDING", "CANCEL_PENDING", "RUNNING", "COMPLETED", "CANCELLED", "FAILED",
   "INTERRUPTED", "NO_UPDATE"]

/-- A `Step` as produced by a successful `Step.__init__` (models.py
lines 114-146): the wrapper sets status `UNASSIGNED`; `step_id` is reset to
`None`; the `cluster_id` column is never assigned, so it holds its column
default `None`. -/
def Step.mkInit (id : Nat) (name user credentials job_flow_config : String) :
    Step :=
  { id := id
    name := name
    step_id := none
    status := "UNASSIGNED"
    cluster_id := none
    user := user
    credentials := credentials
    job_flow_config := job_flow_config
    properties_snapshot := "" }

/-- The `clusters` row of models.py (`Cluster`, and via concrete inheritance
also the `step_clusters` row of `StepsCluster`): the columns the core's
operations read or write.  `terminate_on` is a minute timestamp. -/
structure Cluster where
  id : Option String
  status : String
  terminate_on : Option Nat
  assigned_steps : List String
  user : String
  credentials : String
  job_flow_config : String
  properties_snapshot : String
  deriving DecidableEq, Repr

def Cluster.setStatus (c : Cluster) (st : String) : Cluster :=
  { c with status := st }

def Cluster.TERMINATED_STATUS : List String :=
  ["TERMINATED", "TERMINATED_WITH_ERRORS", "EXPIRED_TOKEN"]

def Cluster.UNASSIGNED_STATUS : String := "WAITING"

/-- `Cluster.is_terminated` (models.py lines 459-460). -/
def Cluster.is_terminated (c : Cluster) : Bool :=
  decide (c.status ∈ Cluster.TERMINATED_STATUS)

/-- A `Cluster` as produced by a successful `Cluster.__init__` (models.py
lines 292-310): `assigned_steps = []`, `terminate_on = utcnow() +
timedelta(minutes=lifetime)`, `id = None`, and the wrapper sets status
`STARTING`. -/
def Cluster.init (credentials job_flow_config user : String)
    (now lifetime : Nat) : Cluster :=
  { id := none
    status := "STARTING"
    terminate_on := some (now + lifetime)
    assigned_steps := []
    user := user
    credentials := credentials
    job_flow_config := job_flow_config
    properties_snapshot := "" }

/-- `StepsCluster` (models.py lines 469-490) declares no `__init__` of its
own: instantiating it runs the inherited `Cluster.__init__` with the default
`lifetime = 240`. -/
def StepsCluster.init (credentials job_flow_config user : String)
    (now : Nat) : Cluster :=
  Cluster.init credentials job_flow_config user now 240

/-- `Step.__hash__` / `Cluster.__hash__` (models.py lines 148-152 and
312-316): `int("00".join(str(ord(ch)) for ch in json.dumps(job_flow_config)))`,
applied here to the already-serialized configuration string. -/
def configHash (s : String) : Nat :=
  (String.intercalate "00" (s.data.map (fun c => toString c.toNat))).toNat?.getD 0

/-- The object state left behind by a cluster operation, whether it returned
or raised. -/
def clusterAfter (r : Except (Cluster × EmrError) Cluster) : Cluster :=
  match r with
  | .ok c => c
  | .error (c, _) => c

/-- The object state left behind by a step operation, whether it returned or
raised. -/
def stepAfter (r : Except (Step × EmrError) Step) : Step :=
  match r with
  | .ok s => s
  | .error (s, _) => s

/-- `Cluster.create` (models.py lines 362-377): `status_handler` with
`on_error="ERROR"`, `on_success="STARTING"`; on success the remote cluster id
is stored in `id`. -/
def Cluster.create (outcome : Except EmrError String) (c : Cluster) :
    Except (Cluster × EmrError) Cluster :=
  (status_handler Cluster.setStatus "ERROR" (some "STARTING")
    (fun c =>
      match outcome with
      | .error e => .error (c, e)
      | .ok rid => .ok ({ c with id := some rid }, ()))
    c).map Prod.fst

/-- `Cluster.add_step` (models.py lines 379-414): `status_handler` with
`on_error="ERROR"` and no success status; on success the inserted remote step
id is appended to `assigned_steps`, `terminate_on` is cleared, and
`(self.id, inserted_step_id)` is returned. -/
def Cluster.add_step (outcome : Except EmrError String) (c : Cluster) :
    Except (Cluster × EmrError) (Cluster × Option String × String) :=
  status_handler Cluster.setStatus "ERROR" none
    (fun c =>
      match outcome with
      | .error e => .error (c, e)
      | .ok sid =>
          let c1 : Cluster :=
            { c with assigned_steps := c.assigned_steps ++ [sid],
                     terminate_on := none }
          .ok (c1, (c1.id, sid)))
    c

/-- `Cluster.update_status` (models.py lines 416-441): `status_handler` with
`on_error="NO_UPDATE"`; on success store the snapshot, adopt the
remote-reported state, and arm a 15-minute deadline when no deadline is set
and the observed state is `WAITING`. -/
def Cluster.update_status (now : Nat) (resp : Except EmrError StatusPayload)
    (c : Cluster) : Except (Cluster × EmrError) Cluster :=
  (status_handler Cluster.setStatus "NO_UPDATE" none
    (fun c =>
      match resp with
      | .error e => .error (c, e)
      | .ok r =>
          let c1 : Cluster :=
            { c with properties_snapshot := r.snapshot, status := r.state }
          if c1.terminate_on = none ∧ c1.status = Cluster.UNASSIGNED_STATUS then
            .ok ({ c1 with terminate_on := some (now + 15) }, ())
          else
            .ok (c1, ()))
    c).map Prod.fst

/-- `Cluster.terminate` (models.py lines 443-457): `status_handler` with
`on_error="TERMINATED_WITH_ERRORS"`, `on_success="TERMINATED"`. -/
def Cluster.terminate (outcome : Except EmrError Unit) (c : Cluster) :
    Except (Cluster × EmrError) Cluster :=
  (status_handler Cluster.setStatus "TERMINATED_WITH_ERRORS" (some "TERMINATED")
    (fun c =>
      match outcome with
      | .error e => .error (c, e)
      | .ok _ => .ok (c, ()))
    c).map Prod.fst

/-- `Step.check_in` (models.py lines 219-224): `status_handler` with
`on_error="FAILED"`, `on_success="PENDING"`; the body records the hosting
cluster id and the remote step id. -/
def Step.check_in (cid : Option String) (sid : String) (s : Step) :
    Except (Step × EmrError) Step :=
  (status_handler Step.setStatus "FAILED" (some "PENDING")
    (fun s => .ok ({ s with cluster_id := cid, step_id := some sid }, ()))
    s).map Prod.fst

/-- `Step.update_status` (models.py lines 194-217): `status_handler` with
`on_error="NO_UPDATE"`; the body only acts when both `cluster_id` and
`step_id` are truthy, in which case it stores the snapshot and adopts the
remote-reported state. -/
def Step.update_status (resp : Except EmrError StatusPayload) (s : Step) :
    Except (Step × EmrError) Step :=
  (status_handler Step.setStatus "NO_UPDATE" none
    (fun s =>
      if truthy s.cluster_id && truthy s.step_id then
        match resp with
        | .error e => .error (s, e)
        | .ok r =>
            .ok ({ s with properties_snapshot := r.snapshot,
                          status := r.state }, ())
      else
        .ok (s, ()))
    s).map Prod.fst

/-- The exception raised when `StepsCluster.query.get(self.cluster_id)`
returns `None` inside `Step.cancel` and `cluster.is_terminated()` is then
called on `None`. -/
def noneClusterError : EmrError :=
  { kind := ErrKind.other
    msg := "NoneType object has no attribute is_terminated" }

/-- `Step.cancel` (models.py lines 226-250): `status_handler` with
`on_error="CANCEL_ERROR"`, `on_success="CANCELLED"`.  When `cluster_id` is
truthy the hosting `StepsCluster` is looked up (`lookup` models the query
result); if it is found and not terminated the remote cancel call runs, and a
`StepCancelError` from it is caught inside the body and only logged. -/
def Step.cancel (lookup : Option Cluster) (out : Except EmrError Unit)
    (s : Step) : Except (Step × EmrError) Step :=
  (status_handler Step.setStatus "CANCEL_ERROR" (some "CANCELLED")
    (fun s =>
      if truthy s.cluster_id then
        match lookup with
        | none => .error (s, noneClusterError)
        | some cluster =>
            if cluster.is_terminated then
              .ok (s, ())
            else
              match out with
              | .error e =>
                  if e.kind = ErrKind.stepCancel then .ok (s, ())
                  else .error (s, e)
              | .ok _ => .ok (s, ())
      else
        .ok (s, ()))
    s).map Prod.fst

/-! ### Module-level functions of `src/app/core/__init__.py` -/

/-- `emr_quota_bucket` (core/__init__.py line 40): a burst capacity and a
refill rate in requests per second. -/
structure emr_quota_bucket where
  maximum_capacity : Nat
  refill_rate : ℚ
  deriving DecidableEq, Repr

/-- `FREQUENCY_LIMIT_COEFFICIENT = 1` (core/__init__.py line 42). -/
def FREQUENCY_LIMIT_COEFFICIENT : Nat := 1

def MAX_RUN_JOB_FLOW_FREQUENCY : emr_quota_bucket :=
  { maximum_capacity := 10 * FREQUENCY_LIMIT_COEFFICIENT, refill_rate := 1/2 }

def MAX_ADD_JOB_FLOW_STEPS_FREQUENCY : emr_quota_bucket :=
  { maximum_capacity := 10 * FREQUENCY_LIMIT_COEFFICIENT, refill_rate := 1/2 }

def MAX_DESCRIBE_CLUSTER_FREQUENCY : emr_quota_bucket :=
  { maximum_capacity := 10 * FREQUENCY_LIMIT_COEFFICIENT, refill_rate := 1 }

def MAX_TERMINATE_JOB_FLOWS_FREQUENCY : emr_quota_bucket :=
  { maximum_capacity := 10 * FREQUENCY_LIMIT_COEFFICIENT, refill_rate := 1/2 }

def MAX_CANCEL_STEPS_FREQUENCY : emr_quota_bucket :=
  { maximum_capacity := 10 * FREQUENCY_LIMIT_COEFFICIENT, refill_rate := 1/5 }

def MAX_DESCRIBE_STEP_FREQUENCY : emr_quota_bucket :=
  { maximum_capacity := 10 * FREQUENCY_LIMIT_COEFFICIENT, refill_rate := 1/2 }

/-- `sleep_for_service_quota` (core/__init__.py lines 104-120), returning the
slept duration in seconds: zero while the request index is below the burst
capacity, otherwise `1 / refill_rate` scaled by the coefficient. -/
def sleep_for_service_quota (max_frequency : emr_quota_bucket)
    (bucket_capacity_usage : Nat) : ℚ :=
  if bucket_capacity_usage < max_frequency.maximum_capacity then 0
  else (1 / max_frequency.refill_rate) * (FREQUENCY_LIMIT_COEFFICIENT : ℚ)

/-- The loop body sequence of `update_clusters` (core/__init__.py
lines 77-84): reconcile each cluster in order, swallowing
`UpdateStatusError` (`except UpdateStatusError: pass`); an exception of any
other class propagates out of the sweep. -/
def update_clusters_loop (now : Nat) :
    List (Cluster × Except EmrError StatusPayload) →
    Except EmrError (List Cluster)
  | [] => .ok []
  | (c, resp) :: rest =>
      match Cluster.update_status now resp c with
      | .ok c1 => (update_clusters_loop now rest).map (fun l => c1 :: l)
      | .error (c1, e) =>
          if e.kind = ErrKind.updateStatus then
            (update_clusters_loop now rest).map (fun l => c1 :: l)
          else
            .error e

/-- `update_clusters` (core/__init__.py lines 66-86): the query keeps only
clusters whose status is outside `Cluster.TERMINATED_STATUS` (across both the
`clusters` and `step_clusters` tables, here one concatenated list), then the
loop reconciles each of them.  Each cluster is paired with the outcome of its
`describe_cluster` call. -/
def update_clusters (now : Nat)
    (items : List (Cluster × Except EmrError StatusPayload)) :
    Except EmrError (List Cluster) :=
  update_clusters_loop now (items.filter (fun p => !(Cluster.is_terminated p.1)))

/-- The loop body sequence of `update_steps` (core/__init__.py lines 92-99):
reconcile each step in order, swallowing `UpdateStatusError`. -/
def update_steps_loop :
    List (Step × Except EmrError StatusPayload) →
    Except EmrError (List Step)
  | [] => .ok []
  | (s, resp) :: rest =>
      match Step.update_status resp s with
      | .ok s1 => (update_steps_loop rest).map (fun l => s1 :: l)
      | .error (s1, e) =>
          if e.kind = ErrKind.updateStatus then
            (update_steps_loop rest).map (fun l => s1 :: l)
          else
            .error e

/-- `update_steps` (core/__init__.py lines 89-101): filter to steps whose
status is outside `Step.TERMINATED_STATUS`, then reconcile each. -/
def update_steps (items : List (Step × Except EmrError StatusPayload)) :
    Except EmrError (List Step) :=
  update_steps_loop
    (items.filter (fun p => !(decide (p.1.status ∈ Step.TERMINATED_STATUS))))

/-- The bucket map built by `Manager.categorize_clusters`: a Python dict from
config hash to the list of idle clusters with that hash, as an association
list preserving dict insertion order. -/
abbrev Buckets := List (Nat × List Cluster)

/-- Python `dict.get`. -/
def bucketsGet : Buckets → Nat → Option (List Cluster)
  | [], _ => none
  | (k, v) :: rest, h => if k = h then some v else bucketsGet rest h

/-- Python `dict[k] = v`: replace in place, or append a new key at the end. -/
def bucketsSet : Buckets → Nat → List Cluster → Buckets
  | [], h, v => [(h, v)]
  | (k, w) :: rest, h, v =>
      if k = h then (h, v) :: rest else (k, w) :: bucketsSet rest h v

/-- `Manager.categorize_clusters` (core/__init__.py lines 183-203): group the
idle `StepsCluster` rows by `hash(cluster)`, appending each cluster to its
bucket in iteration order. -/
def categorize_clusters (clusters : List Cluster) : Buckets :=
  clusters.foldl
    (fun b c =>
      match bucketsGet b (configHash c.job_flow_config) with
      | some l => bucketsSet b (configHash c.job_flow_config) (l ++ [c])
      | none => bucketsSet b (configHash c.job_flow_config) [c])
    []

/-- The remote outcomes the environment supplies for one assignment attempt:
the result of `run_job_flow` should a cluster be created, and the result of
`add_job_flow_steps`. -/
structure AssignEnv where
  createResult : Except EmrError String
  addResult : Except EmrError String
  deriving Repr

/-- `Manager.get_viable_cluster` (core/__init__.py lines 240-264): look up
`categorized_clusters.get(hash(step))`; when the bucket is non-empty, pop its
first cluster (`pop(0)`) in place; otherwise instantiate a new `StepsCluster`
from the step's credentials and launch configuration and `create()` it.  The
result also carries the updated bucket map and, third, the remote id of a
newly created cluster when one was created. -/
def get_viable_cluster (step : Step) (b : Buckets) (env : AssignEnv)
    (now : Nat) (user : String) :
    Except (Cluster × EmrError) Cluster × Buckets × Option String :=
  match bucketsGet b (configHash step.job_flow_config) with
  | some (c :: rest) =>
      (.ok c, bucketsSet b (configHash step.job_flow_config) rest, none)
  | _ =>
      let c0 := StepsCluster.init step.credentials step.job_flow_config user now
      match Cluster.create env.createResult c0 with
      | .ok c1 => (.ok c1, b, c1.id)
      | .error pe => (.error pe, b, none)

/-- The pass-local state threaded through `Manager.run`: the bucket map and
the remote ids of the scheduler-managed clusters created so far in the
pass. -/
structure PassSt where
  buckets : Buckets
  createdIds : List String
  deriving Repr

/-- `Manager.assign_step_to_cluster` (core/__init__.py lines 205-238): obtain
a viable cluster, `add_step` the step to it, and on success `check_in` the
step with the returned `(cluster_id, step_id)`.  Exceptions of
`get_viable_cluster` or `add_step` propagate to the caller.  (The metric
emission is best-effort: a `MetricsError` is caught and logged, with no
effect on the entities.) -/
def assign_step_to_cluster (user : String) (now : Nat) (st : PassSt)
    (step : Step) (env : AssignEnv) :
    Except (PassSt × EmrError) (PassSt × Step) :=
  match get_viable_cluster step st.buckets env now user with
  | (.error (_, e), b1, _) =>
      .error ({ buckets := b1, createdIds := st.createdIds }, e)
  | (.ok cluster, b1, created) =>
      let st1 : PassSt :=
        { buckets := b1, createdIds := st.createdIds ++ created.toList }
      match Cluster.add_step env.addResult cluster with
      | .error (_, e) => .error (st1, e)
      | .ok (_, cid, sid) =>
          let s1 := stepAfter (Step.check_in cid sid step)
          .ok (st1, s1)

/-- The `except` clauses of `Manager.run` (core/__init__.py lines 168-177):
`CreateClusterError` and `UnableToAssignStepError` set the step's status to
`BAD_CONFIG`; any other exception sets it to `ERROR`. -/
def run_error_status (e : EmrError) : String :=
  if e.kind = ErrKind.createCluster ∨ e.kind = ErrKind.unableToAssign then
    "BAD_CONFIG"
  else
    "ERROR"

/-- One iteration of the `for` loop in `Manager.run` (core/__init__.py
lines 161-177): attempt the assignment; when it raises, set the step's status
per the `except` clauses and keep going. -/
def runStepItem (user : String) (now : Nat) (st : PassSt)
    (item : Step × AssignEnv) : PassSt × Step :=
  match assign_step_to_cluster user now st item.1 item.2 with
  | .ok (st1, s1) => (st1, s1)
  | .error (st1, e) => (st1, { item.1 with status := run_error_status e })

/-- The full `for` loop of `Manager.run` over the unassigned steps in query
order, returning the final pass state and the steps after processing. -/
def runSteps (user : String) (now : Nat) (st : PassSt) :
    List (Step × AssignEnv) → PassSt × List Step
  | [] => (st, [])
  | item :: rest =>
      let r1 := runStepItem user now st item
      let r2 := runSteps user now r1.1 rest
      (r2.1, r1.2 :: r2.2)

/-- The expiry predicate of `Manager.expired_clusters` (core/__init__.py
lines 286-310): status outside `TERMINATED_STATUS`, `terminate_on` set, and
`terminate_on` older than `utcnow()`. -/
def expiredPred (now : Nat) (c : Cluster) : Bool :=
  !(Cluster.is_terminated c) &&
    (match c.terminate_on with
     | none => false
     | some t => decide (t < now))

/-- `Manager.expired_clusters` (core/__init__.py lines 280-312): the expired
`step_clusters` rows followed by the expired `clusters` rows. -/
def expired_clusters (step_clusters clusters : List Cluster) (now : Nat) :
    List Cluster :=
  step_clusters.filter (expiredPred now) ++ clusters.filter (expiredPred now)

/-- `Manager.terminate_clusters` (core/__init__.py lines 266-278): call
`terminate()` on each expired cluster, swallowing
`UnableToTerminateClusterError` so one failure does not block the others. -/
def terminate_clusters (step_clusters clusters : List Cluster) (now : Nat)
    (env : Cluster → Except EmrError Unit) : List Cluster :=
  (expired_clusters step_clusters clusters now).map
    (fun c => clusterAfter (Cluster.terminate (env c) c))

/-! ### Reachable step states (for the `clusterId`/`UNASSIGNED` invariant) -/

/-- The step states reachable through the core's operations, starting from a
successfully constructed step (`Step.__init__`): in any order, check-in
during assignment, reconciliation (whose successful responses report one of
the EMR step states documented in models.py), cancellation, and the
error-status assignments of `Manager.run` (which apply to steps selected by
the `UNASSIGNED` query). -/
inductive StepReach : Step → Prop where
  | init (id : Nat) (name user credentials job_flow_config : String) :
      StepReach (Step.mkInit id name user credentials job_flow_config)
  | check_in (s : Step) (cid : Option String) (sid : String)
      (hs : s.status = Step.UNASSIGNED_STATUS) :
      StepReach s → StepReach (stepAfter (Step.check_in cid sid s))
  | reconcile_ok (s : Step) (r : StatusPayload)
      (hr : r.state ∈ EMR_STEP_STATES) :
      StepReach s → StepReach (stepAfter (Step.update_status (.ok r) s))
  | reconcile_err (s : Step) (e : EmrError) :
      StepReach s → StepReach (stepAfter (Step.update_status (.error e) s))
  | cancel (s : Step) (lookup : Option Cluster) (out : Except EmrError Unit) :
      StepReach s → StepReach (stepAfter (Step.cancel lookup out s))
  | assign_failed (s : Step) (e : EmrError)
      (hs : s.status = Step.UNASSIGNED_STATUS) :
      StepReach s → StepReach { s with status := run_error_status e }

/-! ### Helper lemmas -/

/-- `Step.check_in` always succeeds: it records the cluster id and remote
step id and the wrapper sets status `PENDING`. -/
theorem check_in_eq (cid : Option String) (sid : String) (s : Step) :
    Step.check_in cid sid s =
      .ok { s with cluster_id := cid, step_id := some sid,
                   status := "PENDING" } := rfl

/-- Membership characterization of the expiry predicate. -/
theorem expiredPred_eq_true (now : Nat) (c : Cluster) :
    expiredPred now c = true ↔
      (c.status ∉ Cluster.TERMINATED_STATUS ∧
        ∃ t, c.terminate_on = some t ∧ t < now) := by
  unfold expiredPred Cluster.is_terminated
  cases h : c.terminate_on <;> simp [h]

/-! ### Claims -/

/-- C8: whenever `Cluster.add_step` succeeds, the cluster's `terminate_on` is
cleared and the inserted remote step id is appended to `assigned_steps`,
while status and every other column are unchanged; and when the remote call
fails, `add_step` does not succeed (it raises, with the cluster marked
`ERROR`, or `EXPIRED_TOKEN` for an expired-token message). -/
theorem add_step_clears_deadline_appends_step_frames_rest
    (c : Cluster) (sid : String) (e : EmrError) :
    (∃ c1, Cluster.add_step (.ok sid) c = .ok (c1, (c.id, sid)) ∧
      c1.terminate_on = none ∧
      c1.assigned_steps = c.assigned_steps ++ [sid] ∧
      c1.status = c.status ∧
      c1.id = c.id ∧
      c1.user = c.user ∧
      c1.credentials = c.credentials ∧
      c1.job_flow_config = c.job_flow_config ∧
      c1.properties_snapshot = c.properties_snapshot) ∧
    Cluster.add_step (.error e) c =
      .error (Cluster.setStatus c
        (if containsExpiredToken e.msg then "EXPIRED_TOKEN" else "ERROR"), e) := by
  constructor
  · exact ⟨_, rfl, rfl, rfl, rfl, rfl, rfl, rfl, rfl, rfl⟩
  · by_cases hx : containsExpiredToken e.msg <;>
      simp [Cluster.add_step, status_handler, hx, Cluster.setStatus]

/-- C9: the rate limiter imposes zero delay while the within-pass request
index is below the burst capacity and a delay of `1 / refill_rate` seconds
scaled by the safety coefficient otherwise; with the configured add-step
bucket (capacity `10`, refill `0.5`), request indices 0-9 (calls 1-10) incur
no delay and index 10 (the 11th call) sleeps 2 seconds. -/
theorem sleep_for_service_quota_spec (i : Nat) (bq : emr_quota_bucket) :
    sleep_for_service_quota bq i =
      (if i < bq.maximum_capacity then 0
       else (1 / bq.refill_rate) * (FREQUENCY_LIMIT_COEFFICIENT : ℚ)) ∧
    sleep_for_service_quota MAX_ADD_JOB_FLOW_STEPS_FREQUENCY i =
      (if i < 10 then 0 else 2) ∧
    sleep_for_service_quota MAX_DESCRIBE_CLUSTER_FREQUENCY i =
      (if i < 10 then 0 else 1) ∧
    sleep_for_service_quota MAX_CANCEL_STEPS_FREQUENCY i =
      (if i < 10 then 0 else 5) := by
  refine ⟨rfl, ?_, ?_, ?_⟩ <;>
    · simp only [sleep_for_service_quota, MAX_ADD_JOB_FLOW_STEPS_FREQUENCY,
        MAX_DESCRIBE_CLUSTER_FREQUENCY, MAX_CANCEL_STEPS_FREQUENCY,
        FREQUENCY_LIMIT_COEFFICIENT]
      split_ifs <;> norm_num

/-- C6: a cluster is selected by the Expiry Sweep's `expired_clusters` query
(and hence passed to `terminate` by `terminate_clusters`) iff it is one of
the queried rows, its status is non-terminal, and its `terminate_on` is set
and strictly in the past — so no cluster with a null or future deadline is
ever terminated by the sweep. -/
theorem expired_clusters_mem_iff (step_clusters clusters : List Cluster)
    (now : Nat) (c : Cluster) :
    c ∈ expired_clusters step_clusters clusters now ↔
      ((c ∈ step_clusters ∨ c ∈ clusters) ∧
        c.status ∉ Cluster.TERMINATED_STATUS ∧
        ∃ t, c.terminate_on = some t ∧ t < now) := by
  simp only [expired_clusters, List.mem_append, List.mem_filter,
    expiredPred_eq_true]
  constructor
  · rintro (⟨hm, hp⟩ | ⟨hm, hp⟩)
    · exact ⟨Or.inl hm, hp⟩
    · exact ⟨Or.inr hm, hp⟩
  · rintro ⟨hm | hm, hp⟩
    · exact Or.inl ⟨hm, hp⟩
    · exact Or.inr ⟨hm, hp⟩

/-- C5: when processing one work unit in `Manager.run` raises, the unit's
status is set to `BAD_CONFIG` for `CreateClusterError` or
`UnableToAssignStepError` and to `ERROR` for any other exception, and the
loop goes on to process every remaining unit of the pass. -/
theorem run_continues_after_assignment_error (user : String) (now : Nat)
    (st st1 : PassSt) (s : Step) (env : AssignEnv)
    (rest : List (Step × AssignEnv)) (e : EmrError)
    (h : assign_step_to_cluster user now st s env = .error (st1, e)) :
    runSteps user now st ((s, env) :: rest) =
      ((runSteps user now st1 rest).1,
        { s with status :=
            if e.kind = ErrKind.createCluster ∨ e.kind = ErrKind.unableToAssign
            then "BAD_CONFIG" else "ERROR" }
          :: (runSteps user now st1 rest).2) := by
  simp [runSteps, runStepItem, h, run_error_status]

/-- Witness for C5: a concrete pass whose only unit hits a
`CreateClusterError` ends with that unit in `BAD_CONFIG`. -/
theorem run_continues_after_assignment_error_witness :
    runSteps "manager" 0 ⟨[], []⟩
        [(Step.mkInit 1 "n" "u" "cr" "a",
          ⟨.error ⟨ErrKind.createCluster, "bad"⟩, .ok "s-1"⟩)] =
      (⟨[], []⟩,
        [{ Step.mkInit 1 "n" "u" "cr" "a" with status := "BAD_CONFIG" }]) := by
  have h := run_continues_after_assignment_error "manager" 0 ⟨[], []⟩ ⟨[], []⟩
    (Step.mkInit 1 "n" "u" "cr" "a")
    ⟨.error ⟨ErrKind.createCluster, "bad"⟩, .ok "s-1"⟩ []
    ⟨ErrKind.createCluster, "bad"⟩ rfl
  simpa [runSteps] using h

/-- C4: with exactly one idle scheduler-managed cluster of hash `H` and two
pending units both hashing to `H`, the first unit (in query order) pops the
existing cluster from the front of `bucket[H]` and is placed on it, and the
second unit — finding the bucket empty — triggers creation of a new
scheduler-managed cluster with the remote id returned by the control
plane. -/
theorem one_idle_cluster_two_units_fifo_then_create (user : String)
    (now : Nat) (c : Cluster) (s1 s2 : Step)
    (cr1 : Except EmrError String) (sid1 rid2 sid2 : String)
    (h1 : configHash s1.job_flow_config = configHash c.job_flow_config)
    (h2 : configHash s2.job_flow_config = configHash c.job_flow_config) :
    runSteps user now ⟨categorize_clusters [c], []⟩
        [(s1, ⟨cr1, .ok sid1⟩), (s2, ⟨.ok rid2, .ok sid2⟩)] =
      (⟨[(configHash c.job_flow_config, [])], [rid2]⟩,
        [{ s1 with cluster_id := c.id, step_id := some sid1,
                   status := "PENDING" },
         { s2 with cluster_id := some rid2, step_id := some sid2,
                   status := "PENDING" }]) := by
  simp [runSteps, runStepItem, assign_step_to_cluster, get_viable_cluster,
    categorize_clusters, bucketsGet, bucketsSet, h1, h2, Cluster.add_step,
    status_handler, check_in_eq, stepAfter, Cluster.create, StepsCluster.init,
    Cluster.init, Cluster.setStatus, Except.map]

/-- An idle (`WAITING`) scheduler-managed cluster used as the concrete
bucketed cluster for the C4 scenario. -/
def c4_idle : Cluster :=
  { StepsCluster.init "cr" "a" "manager" 0 with
      id := some "j-1", status := "WAITING" }

/-- Witness for C4 at concrete inputs (both configurations serialized as
`"a"`, one idle cluster `j-1`). -/
theorem one_idle_cluster_two_units_fifo_then_create_witness :
    runSteps "manager" 3 ⟨categorize_clusters [c4_idle], []⟩
        [(Step.mkInit 1 "n" "u" "cr" "a", ⟨.ok "j-9", .ok "s-1"⟩),
         (Step.mkInit 2 "m" "u" "cr" "a", ⟨.ok "j-2", .ok "s-2"⟩)] =
      (⟨[(configHash c4_idle.job_flow_config, [])], ["j-2"]⟩,
        [{ Step.mkInit 1 "n" "u" "cr" "a" with
             cluster_id := c4_idle.id,
             step_id := some "s-1", status := "PENDING" },
         { Step.mkInit 2 "m" "u" "cr" "a" with
             cluster_id := some "j-2", step_id := some "s-2",
             status := "PENDING" }]) :=
  one_idle_cluster_two_units_fifo_then_create "manager" 3
    c4_idle (Step.mkInit 1 "n" "u" "cr" "a")
    (Step.mkInit 2 "m" "u" "cr" "a") (.ok "j-9") "s-1" "j-2" "s-2" rfl rfl

/-- C10: clusters provisioned during a pass are never inserted into that
pass's bucket map: starting from an empty bucket map, two pending units with
equal config hash each cause creation of their own scheduler-managed cluster
(the second does not reuse the cluster created for the first), and the bucket
map is still empty at the end of the pass. -/
theorem created_clusters_not_bucketed (user : String) (now : Nat)
    (s1 s2 : Step) (rid1 sid1 rid2 sid2 : String)
    (_h : configHash s1.job_flow_config = configHash s2.job_flow_config) :
    runSteps user now ⟨[], []⟩
        [(s1, ⟨.ok rid1, .ok sid1⟩), (s2, ⟨.ok rid2, .ok sid2⟩)] =
      (⟨[], [rid1, rid2]⟩,
        [{ s1 with cluster_id := some rid1, step_id := some sid1,
                   status := "PENDING" },
         { s2 with cluster_id := some rid2, step_id := some sid2,
                   status := "PENDING" }]) := by
  simp [runSteps, runStepItem, assign_step_to_cluster, get_viable_cluster,
    bucketsGet, Cluster.add_step, status_handler, check_in_eq, stepAfter,
    Cluster.create, StepsCluster.init, Cluster.init, Cluster.setStatus,
    Except.map]

/-- Witness for C10 at concrete inputs (both configurations serialized as
`"a"`). -/
theorem created_clusters_not_bucketed_witness :
    runSteps "manager" 3 ⟨[], []⟩
        [(Step.mkInit 1 "n" "u" "cr" "a", ⟨.ok "j-1", .ok "s-1"⟩),
         (Step.mkInit 2 "m" "u" "cr" "a", ⟨.ok "j-2", .ok "s-2"⟩)] =
      (⟨[], ["j-1", "j-2"]⟩,
        [{ Step.mkInit 1 "n" "u" "cr" "a" with
             cluster_id := some "j-1", step_id := some "s-1",
             status := "PENDING" },
         { Step.mkInit 2 "m" "u" "cr" "a" with
             cluster_id := some "j-2", step_id := some "s-2",
             status := "PENDING" }]) :=
  created_clusters_not_bucketed "manager" 3 (Step.mkInit 1 "n" "u" "cr" "a")
    (Step.mkInit 2 "m" "u" "cr" "a") "j-1" "s-1" "j-2" "s-2" rfl

/-- A non-terminal cluster used as the concrete reconciliation-failure
input. -/
def c1_cluster : Cluster :=
  { Cluster.init "cr" "a" "u" 0 240 with status := "RUNNING" }

/-- Counterexample to C1: a non-terminal cluster in status `RUNNING` whose
`describe_cluster` call fails with `UpdateStatusError` comes out of the sweep
in status `NO_UPDATE` — its previous status is NOT preserved (the sweep does,
however, swallow the error). -/
theorem reconcile_failure_changes_status_cex :
    update_clusters 7 [(c1_cluster, .error ⟨ErrKind.updateStatus, "boom"⟩)] =
      .ok [Cluster.setStatus c1_cluster "NO_UPDATE"] ∧
    (Cluster.setStatus c1_cluster "NO_UPDATE").status ≠ c1_cluster.status := by
  exact ⟨rfl, by decide⟩

/-- C1 as amended: when reconciling an entity raises `UpdateStatusError`, the
sweep swallows the error and continues with the remaining entities, but the
failed entity is left in status `NO_UPDATE` (or `EXPIRED_TOKEN` when the
error text indicates an expired token) — not in its previous status.  Stated
for both the cluster sweep and the step sweep (for a step whose `cluster_id`
and `step_id` are set, so that the describe call actually runs). -/
theorem reconcile_failure_swallowed_sets_no_update (now : Nat) (c : Cluster)
    (s : Step) (e : EmrError)
    (restC : List (Cluster × Except EmrError StatusPayload))
    (restS : List (Step × Except EmrError StatusPayload))
    (hk : e.kind = ErrKind.updateStatus)
    (hs : (truthy s.cluster_id && truthy s.step_id) = true) :
    update_clusters_loop now ((c, .error e) :: restC) =
      (update_clusters_loop now restC).map
        (fun l => Cluster.setStatus c
          (if containsExpiredToken e.msg then "EXPIRED_TOKEN"
           else "NO_UPDATE") :: l) ∧
    update_steps_loop ((s, .error e) :: restS) =
      (update_steps_loop restS).map
        (fun l => Step.setStatus s
          (if containsExpiredToken e.msg then "EXPIRED_TOKEN"
           else "NO_UPDATE") :: l) := by
  by_cases hx : containsExpiredToken e.msg <;>
    constructor <;>
      simp [update_clusters_loop, update_steps_loop, Cluster.update_status,
        Step.update_status, status_handler, hk, hx, hs, Except.map]

/-- Witness for C1's amended statement at concrete inputs. -/
theorem reconcile_failure_swallowed_sets_no_update_witness :
    update_clusters_loop 7 [(c1_cluster, .error ⟨ErrKind.updateStatus, "boom"⟩)] =
      (update_clusters_loop 7 []).map
        (fun l => Cluster.setStatus c1_cluster
          (if containsExpiredToken "boom" then "EXPIRED_TOKEN"
           else "NO_UPDATE") :: l) ∧
    update_steps_loop
        [({ Step.mkInit 1 "n" "u" "cr" "a" with
              status := "RUNNING", cluster_id := some "j-1",
              step_id := some "s-1" },
          .error ⟨ErrKind.updateStatus, "boom"⟩)] =
      (update_steps_loop []).map
        (fun l => Step.setStatus
          { Step.mkInit 1 "n" "u" "cr" "a" with
              status := "RUNNING", cluster_id := some "j-1",
              step_id := some "s-1" }
          (if containsExpiredToken "boom" then "EXPIRED_TOKEN"
           else "NO_UPDATE") :: l) :=
  reconcile_failure_swallowed_sets_no_update 7 c1_cluster
    { Step.mkInit 1 "n" "u" "cr" "a" with
        status := "RUNNING", cluster_id := some "j-1",
        step_id := some "s-1" }
    ⟨ErrKind.updateStatus, "boom"⟩ [] [] rfl (by decide)

/-- Counterexample to C2: the scheduler-managed cluster provisioned by
`get_viable_cluster` (a `StepsCluster`, which inherits `Cluster.__init__`
with its default `lifetime = 240`) has `terminate_on` SET at the moment of
its creation, to creation time + 240 minutes. -/
theorem scheduler_cluster_has_initial_deadline_cex :
    (get_viable_cluster (Step.mkInit 1 "n" "u" "cr" "a") []
        ⟨.ok "j-1", .ok "s-1"⟩ 5 "manager").1 =
      .ok { StepsCluster.init "cr" "a" "manager" 5 with id := some "j-1" } ∧
    (StepsCluster.init "cr" "a" "manager" 5).terminate_on = some 245 ∧
    some 245 ≠ (none : Option Nat) := by
  exact ⟨rfl, rfl, by decide⟩

/-- C2 as amended: a scheduler-managed cluster receives the same initial
deadline as an ordinary cluster — `terminate_on = creation time +
lifetime` with the inherited default of 240 minutes — and, independently,
reconciliation (re)arms a 15-minute deadline exactly when it observes a
cluster in `WAITING` with no deadline currently set. -/
theorem scheduler_cluster_deadline_at_init_and_idle_rearm
    (credentials job_flow_config user : String) (now now2 : Nat)
    (c : Cluster) (r : StatusPayload) :
    (StepsCluster.init credentials job_flow_config user now).terminate_on =
      some (now + 240) ∧
    (clusterAfter (Cluster.update_status now2 (.ok r) c)).terminate_on =
      (if c.terminate_on = none ∧ r.state = Cluster.UNASSIGNED_STATUS
       then some (now2 + 15) else c.terminate_on) := by
  constructor
  · rfl
  · by_cases hw : c.terminate_on = none ∧ r.state = Cluster.UNASSIGNED_STATUS <;>
      simp [Cluster.update_status, status_handler, clusterAfter, Except.map, hw]

/-- The concrete step input used for the `Step.cancel` analysis. -/
def c7_step : Step :=
  { Step.mkInit 3 "n" "u" "cr" "a" with
      status := "RUNNING", cluster_id := some "j-1",
      step_id := some "s-1" }

/-- The concrete hosting cluster used for the `Step.cancel` analysis. -/
def c7_cluster : Cluster :=
  { Cluster.init "cr" "a" "u" 0 240 with
      id := some "j-1", status := "RUNNING" }

/-- Counterexample to C7: when the remote cancel call fails
(`StepCancelError`), `Step.cancel` catches the error inside its body and the
step ends in status `CANCELLED`, not `CANCEL_ERROR`. -/
theorem cancel_remote_failure_still_cancelled_cex :
    Step.cancel (some c7_cluster)
        (.error ⟨ErrKind.stepCancel, "remote cancel failed"⟩) c7_step =
      .ok (Step.setStatus c7_step "CANCELLED") ∧
    "CANCELLED" ≠ "CANCEL_ERROR" := by
  exact ⟨rfl, by decide⟩

/-- C7 as amended: `Step.cancel` sets status `CANCELLED` when the operation
completes and `CANCEL_ERROR` when it raises (e.g. when the hosting cluster
row is missing), but a failure of the remote cancel call (`StepCancelError`)
is caught inside the method and only logged, so it also results in
`CANCELLED`. -/
theorem cancel_status_outcomes (s : Step) (cl : Cluster) (e : EmrError)
    (hcid : truthy s.cluster_id = true) (hterm : cl.is_terminated = false)
    (hk : e.kind = ErrKind.stepCancel) :
    Step.cancel (some cl) (.error e) s =
      .ok (Step.setStatus s "CANCELLED") ∧
    Step.cancel (some cl) (.ok ()) s =
      .ok (Step.setStatus s "CANCELLED") ∧
    Step.cancel none (.ok ()) s =
      .error (Step.setStatus s "CANCEL_ERROR", noneClusterError) := by
  have hnx : containsExpiredToken noneClusterError.msg = false := by decide
  refine ⟨?_, ?_, ?_⟩ <;>
    simp [Step.cancel, status_handler, hcid, hterm, hk, hnx, Except.map]

/-- Witness for C7's amended statement at concrete inputs. -/
theorem cancel_status_outcomes_witness :
    Step.cancel (some c7_cluster)
        (.error ⟨ErrKind.stepCancel, "remote cancel failed"⟩) c7_step =
      .ok (Step.setStatus c7_step "CANCELLED") ∧
    Step.cancel (some c7_cluster) (.ok ()) c7_step =
      .ok (Step.setStatus c7_step "CANCELLED") ∧
    Step.cancel none (.ok ()) c7_step =
      .error (Step.setStatus c7_step "CANCEL_ERROR", noneClusterError) :=
  cancel_status_outcomes c7_step c7_cluster
    ⟨ErrKind.stepCancel, "remote cancel failed"⟩ (by decide) (by decide) rfl

/-- Every branch of `Step.cancel` leaves the step equal to the input step
with its status set to `CANCELLED`, `CANCEL_ERROR` or `EXPIRED_TOKEN`. -/
theorem cancel_after_cases (lookup : Option Cluster)
    (out : Except EmrError Unit) (s : Step) :
    stepAfter (Step.cancel lookup out s) = Step.setStatus s "CANCELLED" ∨
    stepAfter (Step.cancel lookup out s) = Step.setStatus s "CANCEL_ERROR" ∨
    stepAfter (Step.cancel lookup out s) = Step.setStatus s "EXPIRED_TOKEN" := by
  have hnx : containsExpiredToken noneClusterError.msg = false := by decide
  by_cases h1 : truthy s.cluster_id = true
  · rcases lookup with _ | cl
    · simp [Step.cancel, status_handler, h1, hnx, stepAfter, Except.map,
        Step.setStatus]
    · by_cases h2 : cl.is_terminated = true
      · simp [Step.cancel, status_handler, h1, h2, stepAfter, Except.map,
          Step.setStatus]
      · rcases out with e | u
        · by_cases h3 : e.kind = ErrKind.stepCancel
          · simp [Step.cancel, status_handler, h1, h2, h3, stepAfter,
              Except.map, Step.setStatus]
          · by_cases h4 : containsExpiredToken e.msg = true <;>
              simp [Step.cancel, status_handler, h1, h2, h3, h4, stepAfter,
                Except.map, Step.setStatus]
        · simp [Step.cancel, status_handler, h1, h2, stepAfter, Except.map,
            Step.setStatus]
  · simp [Step.cancel, status_handler, h1, stepAfter, Except.map,
      Step.setStatus]

/-- The reachable step exhibiting the failure of the backward direction of
the C3 invariant: a step whose assignment attempt raised
`CreateClusterError`. -/
def c3_bad : Step :=
  { Step.mkInit 1 "n" "u" "cr" "a" with status := "BAD_CONFIG" }

/-- Counterexample to C3: the step `c3_bad` is reachable (initial creation,
then the `BAD_CONFIG` assignment of `Manager.run` after a
`CreateClusterError`), its status is not `UNASSIGNED`, and yet its
`cluster_id` is null — so "`cluster_id` non-null iff status not
`UNASSIGNED`" fails on reachable states. -/
theorem step_unassigned_iff_cluster_id_cex :
    StepReach c3_bad ∧
    ¬((c3_bad.cluster_id ≠ none) ↔ (c3_bad.status ≠ Step.UNASSIGNED_STATUS)) := by
  constructor
  · exact StepReach.assign_failed (Step.mkInit 1 "n" "u" "cr" "a")
      ⟨ErrKind.createCluster, "bad"⟩ rfl (StepReach.init 1 "n" "u" "cr" "a")
  · decide

/-- C3 as amended: on every step state reachable through the core's
operations, `status = UNASSIGNED` implies `cluster_id = null` (equivalently,
a non-null `cluster_id` implies the status is not `UNASSIGNED`); the converse
implication does not hold (see the counterexample). -/
theorem step_unassigned_implies_no_cluster (s : Step) (h : StepReach s) :
    s.status = Step.UNASSIGNED_STATUS → s.cluster_id = none := by
  induction h with
  | init id name user credentials job_flow_config =>
      intro _; rfl
  | check_in s cid sid hs hprev ih =>
      intro hst
      simp [check_in_eq, stepAfter, Step.UNASSIGNED_STATUS] at hst
  | reconcile_ok s r hr hprev ih =>
      by_cases hb : (truthy s.cluster_id && truthy s.step_id) = true
      · intro hst
        have hstate : (stepAfter (Step.update_status (.ok r) s)).status =
            r.state := by
          simp [Step.update_status, status_handler, hb, stepAfter, Except.map]
        rw [hstate] at hst
        rw [hst] at hr
        exact absurd hr (by decide)
      · have hid : stepAfter (Step.update_status (.ok r) s) = s := by
          simp [Step.update_status, status_handler, hb, stepAfter, Except.map]
        rw [hid]
        exact ih
  | reconcile_err s e hprev ih =>
      by_cases hb : (truthy s.cluster_id && truthy s.step_id) = true
      · intro hst
        by_cases hx : containsExpiredToken e.msg <;>
          simp [Step.update_status, status_handler, hb, hx, stepAfter,
            Except.map, Step.setStatus, Step.UNASSIGNED_STATUS] at hst
      · have hid : stepAfter (Step.update_status (.error e) s) = s := by
          simp [Step.update_status, status_handler, hb, stepAfter, Except.map]
        rw [hid]
        exact ih
  | cancel s lookup out hprev ih =>
      intro hst
      rcases cancel_after_cases lookup out s with hc | hc | hc <;>
        rw [hc] at hst <;>
        simp [Step.setStatus, Step.UNASSIGNED_STATUS] at hst
  | assign_failed s e hs hprev ih =>
      intro hst
      by_cases hk : e.kind = ErrKind.createCluster ∨
          e.kind = ErrKind.unableToAssign <;>
        simp [run_error_status, hk, Step.UNASSIGNED_STATUS] at hst

/-- Witness for C3's amended statement: a freshly constructed step is
`UNASSIGNED` and the invariant yields its null `cluster_id`. -/
theorem step_unassigned_implies_no_cluster_witness :
    (Step.mkInit 1 "n" "u" "cr" "a").status = Step.UNASSIGNED_STATUS ∧
    (Step.mkInit 1 "n" "u" "cr" "a").cluster_id = none :=
  ⟨rfl, step_unassigned_implies_no_cluster (Step.mkInit 1 "n" "u" "cr" "a")
    (StepReach.init 1 "n" "u" "cr" "a") rfl⟩

end EmrOrch
